import Mathlib

/-!
Verification of the TAD ("Tagged Array Data") native-format codec and the JPEG
codec gate against their natural-language specification.

The embedding models the two given translation units:
  * io-tad.cpp  — the native stream reader/writer (writeTad, writeTadTagList,
    readString, readTadTagList, readTadHeader, readTadData, skipTadData,
    FormatImportExportTAD::arrayCount / readArray / writeArray / hasMore);
  * io-jpeg.cpp — FormatImportExportJPEG::openForWriting and the shape check of
    FormatImportExportJPEG::writeArray.

Bytes are modelled as natural numbers (values 0..255 for real streams), a file
as a list of bytes, and a stdio stream as a byte list plus a position.  The C
functions std::fread / std::fwrite are modelled faithfully to C11 7.21.8.1/2:
a call `fread(p, size, 1, f)` returns the number of COMPLETE elements read, so
it returns 0 (and the `!= 1` checks in the source branch to the error path)
whenever `size` is 0 or fewer than `size` bytes remain; symmetrically for
`fwrite`.  A call `fread(p, size, count, f)` with `count = 0` returns 0, which
equals `count`, so it is not an error.

Reads past the end of a heap buffer (possible in `readString`, which scans for
a NUL terminator with no bound) are undefined behavior in C++; the model makes
them observable as the distinguished outcome `Err.oobAccess`, which is distinct
from every value of the C `Error` enum.
-/

namespace Tad

/-- The `Error` enum values reachable in the modelled code, plus `oobAccess`,
a model-only marker for an out-of-bounds buffer read (undefined behavior in
C++, not a value the C code can return). -/
inductive Err where
  | errorNone
  | errorSysErrno
  | errorInvalidData
  | errorSeekingNotSupported
  | errorFeaturesUnsupported
  | oobAccess
deriving DecidableEq, Repr

/-- A stdio input stream: the file contents and the current position. -/
structure RStream where
  bytes : List Nat
  pos : Nat
deriving DecidableEq, Repr

/-- `SIZE_MAX` on the modelled 64-bit host (`sizeof(size_t) == 8`). -/
def sizetMax : Nat := 2 ^ 64 - 1

/-- `INT_MAX` on the modelled host. -/
def intMax : Nat := 2 ^ 31 - 1

/-- Model of `std::fread(ptr, size, 1, f) == 1`: succeeds iff `size` is
nonzero and `size` bytes remain (C11 7.21.8.1: when `size` is 0 the call
returns 0, so the source's `!= 1` comparison branches to the error path). -/
def freadOne (size : Nat) (s : RStream) : Option (List Nat × RStream) :=
  if size = 0 then none
  else if s.pos + size ≤ s.bytes.length then
    some ((s.bytes.drop s.pos).take size, ⟨s.bytes, s.pos + size⟩)
  else none

/-- Model of `std::fread(ptr, size, count, f) == count` for the dimension
array read: with `count = 0` fread returns `0 = count`, so it succeeds
trivially; otherwise all `size * count` bytes must be available. -/
def freadMany (size count : Nat) (s : RStream) : Option (List Nat × RStream) :=
  if count = 0 then some ([], s)
  else if s.pos + size * count ≤ s.bytes.length then
    some ((s.bytes.drop s.pos).take (size * count), ⟨s.bytes, s.pos + size * count⟩)
  else none

/-- Little-endian (the host's native order in the modelled x86-64 build)
encoding of a `uint64_t` value as 8 bytes, as laid down by `memcpy`. -/
def le64 (v : Nat) : List Nat :=
  [v % 256, v / 256 % 256, v / 256 ^ 2 % 256, v / 256 ^ 3 % 256,
   v / 256 ^ 4 % 256, v / 256 ^ 5 % 256, v / 256 ^ 6 % 256, v / 256 ^ 7 % 256]

/-- Decoding of a little-endian byte list into the `uint64_t` value read back
by `memcpy` / `fread` into a `uint64_t` variable. -/
def decodeLe64 (bs : List Nat) : Nat :=
  bs.foldr (fun b acc => b + 256 * acc) 0

/-- A TagList value as used by the codec: key/value pairs of byte strings.
Keys and values are byte lists (the C++ `std::string` contents, without the
terminating NUL). -/
abbrev TagList : Type := List (List Nat × List Nat)

/-- Modelled from the spec: `TagList::set` — the TagList is an
insertion-ordered map with unique keys; setting an existing key overwrites its
value in place, setting a new key appends the pair.  (The TagList class itself
is declared in a header that is not among the given sources.) -/
def tagSet (tl : TagList) (k v : List Nat) : TagList :=
  if tl.any (fun p => p.1 == k) then
    tl.map (fun p => if p.1 == k then (k, v) else p)
  else tl ++ [(k, v)]

/-- Outcome of `readString`.  `strOk s len` corresponds to the C function
returning `true` with the scanned string `s` and `len` as written by the given
source: the scan reads `data[i++]` and sets `len = i` after breaking on the
NUL, so `len` counts the string bytes PLUS the NUL terminator.  `ctrlFail`
corresponds to returning `false` on a disallowed byte.  `oobRead` marks the
scan running past the end of the buffer passed by the caller (in C this reads
adjacent heap memory — undefined behavior). -/
inductive ReadStrRes where
  | strOk (s : List Nat) (len : Nat)
  | ctrlFail
  | oobRead
deriving DecidableEq, Repr

/-- The scanning loop of `readString`.  `data` is the rest of the buffer from
the scan position to the end of the tag-block payload; `acc` the bytes read so
far; `i` the running index.  The byte comparison `c < 32 || c == 127` is done
on a signed `char`, so bytes 128..255 (negative as signed char) also satisfy
`c < 32`; hence the disallowed set is everything outside 32..126 except the
NUL terminator. -/
def readStringGo : List Nat → List Nat → Nat → ReadStrRes
  | [], _, _ => .oobRead
  | c :: rest, acc, i =>
    if c = 0 then .strOk acc (i + 1)
    else if c < 32 ∨ c = 127 ∨ 128 ≤ c then .ctrlFail
    else readStringGo rest (acc ++ [c]) (i + 1)

/-- `readString(data, s, len)` of io-tad.cpp, scanning from the start of
`data` (the in-payload suffix the caller passes). -/
def readString (data : List Nat) : ReadStrRes :=
  readStringGo data [] 0

/-- The key/value parsing loop of `readTadTagList` over the `n`-byte payload
vector.  `fuel` only bounds the recursion; every iteration advances `i` by at
least 4 while `i < data.length` is required to continue, so the initial fuel
`data.length + 1` is never exhausted. -/
def tagLoop : Nat → List Nat → Nat → TagList → Except Err TagList
  | 0, _, _, _ => .error .errorInvalidData
  | fuel + 1, data, i, tl =>
    if i < data.length then
      match readString (data.drop i) with
      | .ctrlFail => .error .errorInvalidData
      | .oobRead => .error .oobAccess
      | .strOk key keyLen =>
        if i + keyLen + 1 ≥ data.length then .error .errorInvalidData
        else
          match readString (data.drop (i + keyLen + 1)) with
          | .ctrlFail => .error .errorInvalidData
          | .oobRead => .error .oobAccess
          | .strOk value valueLen =>
            tagLoop fuel data (i + keyLen + 1 + valueLen + 1) (tagSet tl key value)
    else .ok tl

/-- `readTadTagList(f, tl)` of io-tad.cpp: read the 8-byte length `n`, check
it against `SIZE_MAX`, read the `n`-byte payload with a single
`fread(data.data(), data.size(), 1, f)` — which fails for `n = 0` as well as
for a short read, see C11 7.21.8.1 — and run the pair-parsing loop.  The
caller always passes a freshly constructed (empty) TagList. -/
def readTadTagList (s : RStream) : Except Err (TagList × RStream) :=
  match freadOne 8 s with
  | none => .error .errorSysErrno
  | some (nb, s1) =>
    let n := decodeLe64 nb
    if n > sizetMax then .error .errorInvalidData
    else
      match freadOne n s1 with
      | none => .error .errorSysErrno
      | some (data, s2) =>
        match tagLoop (data.length + 1) data 0 [] with
        | .error e => .error e
        | .ok tl => .ok (tl, s2)

/-- Modelled from the spec: the scalar-kind table of §3 — signed/unsigned
integers of 1/2/4/8 bytes, 32/64-bit floats and their complex variants, with
one-byte codes; the code-to-size table itself lives in the container header,
which is not among the given sources.  Codes beyond the enumerated kinds get
size 1 (nothing in the claims depends on the values, only on reader and writer
sharing the table). -/
def componentSize : Nat → Nat
  | 0 => 1 | 1 => 1 | 2 => 2 | 3 => 2 | 4 => 4 | 5 => 4 | 6 => 8 | 7 => 8
  | 8 => 4 | 9 => 8 | 10 => 8 | 11 => 16 | _ => 1

/-- Modelled from the spec: the code of the `uint8` scalar kind in the enum
(the second entry of the §3 enumeration, following `int8`). -/
def uint8Code : Nat := 1

/-- Product of a dimension list (the spec's `Π(dimensions)`, 1 for the empty
list). -/
def prodList : List Nat → Nat
  | [] => 1
  | x :: r => x * prodList r

/-- The central container: shape, scalar type code, tag lists at the three
scopes, and the raw data buffer as a byte list. -/
structure ArrayContainer where
  dimensions : List Nat
  componentCount : Nat
  componentType : Nat
  globalTagList : TagList
  componentTagLists : List TagList
  dimensionTagLists : List TagList
  data : List Nat
deriving DecidableEq, Repr

/-- `ArrayContainer::dimensionCount()`. -/
def ArrayContainer.dimensionCount (a : ArrayContainer) : Nat :=
  a.dimensions.length

/-- `ArrayContainer::dimension(d)`. -/
def ArrayContainer.dimension (a : ArrayContainer) (d : Nat) : Nat :=
  a.dimensions.getD d 0

/-- Modelled from the spec: `ArrayContainer::dataSize()` — the invariant of §3
is `byteSize(data) = componentSize(componentType) * componentCount *
Π(dimensions)` (the container header is not among the given sources). -/
def ArrayContainer.dataSize (a : ArrayContainer) : Nat :=
  componentSize a.componentType * a.componentCount * prodList a.dimensions

/-- Modelled from the spec: `ArrayContainer(dimensions, componentCount, type)`
construction — a fresh container with empty tag lists at every scope and a
zero-initialized data buffer of `dataSize` bytes, about to be overwritten by
the tag/data reads (the container header is not among the given sources). -/
def mkContainer (dims : List Nat) (cc : Nat) (t : Nat) : ArrayContainer :=
  { dimensions := dims
    componentCount := cc
    componentType := t
    globalTagList := []
    componentTagLists := List.replicate cc []
    dimensionTagLists := List.replicate dims.length []
    data := List.replicate (componentSize t * cc * prodList dims) 0 }

/-- The `for` loops of `readTadHeader` that decode one tag list per component
and then one per dimension, aborting on the first error. -/
def readTagLists : Nat → RStream → Except Err (List TagList × RStream)
  | 0, s => .ok ([], s)
  | k + 1, s =>
    match readTadTagList s with
    | .error e => .error e
    | .ok (t, s1) =>
      match readTagLists k s1 with
      | .error e => .error e
      | .ok (ts, s2) => .ok (t :: ts, s2)

/-- `readTadHeader(f, array)` of io-tad.cpp: read the 21-byte preamble
(3 magic bytes, reserved byte, type-code byte, two `uint64_t` counts),
validate it, read the dimension sizes, construct the container, then decode
the global, per-component and per-dimension tag lists in that order. -/
def readTadHeader (s : RStream) : Except Err (ArrayContainer × RStream) :=
  match freadOne 21 s with
  | none => .error .errorSysErrno
  | some (start, s1) =>
    let compCount := decodeLe64 ((start.drop 5).take 8)
    let dimCount := decodeLe64 ((start.drop 13).take 8)
    if start.getD 0 0 ≠ 84 ∨ start.getD 1 0 ≠ 65 ∨ start.getD 2 0 ≠ 68 ∨
        start.getD 3 0 ≠ 0 ∨ start.getD 4 0 > 15 ∨
        compCount > sizetMax ∨ dimCount > sizetMax then
      .error .errorInvalidData
    else
      match freadMany 8 dimCount s1 with
      | none => .error .errorSysErrno
      | some (dimBytes, s2) =>
        let dims := (List.range dimCount).map
          (fun d => decodeLe64 ((dimBytes.drop (8 * d)).take 8))
        let a0 := mkContainer dims compCount (start.getD 4 0)
        match readTadTagList s2 with
        | .error e => .error e
        | .ok (g, s3) =>
          match readTagLists compCount s3 with
          | .error e => .error e
          | .ok (cls, s4) =>
            match readTagLists dimCount s4 with
            | .error e => .error e
            | .ok (dls, s5) =>
              .ok ({ a0 with
                      globalTagList := g
                      componentTagLists := cls
                      dimensionTagLists := dls }, s5)

/-- `readTadData(f, array)`: `fread(array.data(), array.dataSize(), 1, f)` —
fails (returning `ErrorSysErrno` in the caller) on a short read and, per C11
7.21.8.1, also when `dataSize` is 0. -/
def readTadData (a : ArrayContainer) (s : RStream) :
    Except Err (ArrayContainer × RStream) :=
  match freadOne a.dataSize s with
  | none => .error .errorSysErrno
  | some (bs, s1) => .ok ({ a with data := bs }, s1)

/-- The per-stream state of a `FormatImportExportTAD` object: the open file,
the current position, whether the medium supports seeking (`ftello`/`fseeko`
succeed), the cached `_arrayCount` (-2 = not yet computed), and the cached
record offset table `_arrayOffsets`. -/
structure TadState where
  bytes : List Nat
  pos : Nat
  seekable : Bool
  arrayCount : Int
  offsets : List Nat
deriving DecidableEq, Repr

/-- `openForReading`: a fresh stream object positioned at 0 with
`_arrayCount = -2` and an empty offset table. -/
def openForReading (bytes : List Nat) (seekable : Bool) : TadState :=
  ⟨bytes, 0, seekable, -2, []⟩

/-- `hasMore()`: peek one byte and push it back — true iff at least one byte
remains at the current position. -/
def hasMore (st : TadState) : Bool :=
  decide (st.pos < st.bytes.length)

/-- The scan loop of `arrayCount()`: while `hasMore()`, record the current
offset, parse a header, and skip the data region with
`fseeko(f, dataSize, SEEK_CUR)` (which succeeds on a seekable file even past
end-of-file).  On a header-parse failure the code returns -1 WITHOUT caching a
count, clearing the partially built offset table, or restoring the position.
When the offset table would reach `INT_MAX` with input remaining, the table is
cleared and -1 is cached.  On normal completion the saved position `curPos` is
restored and the count cached.  `fuel` only bounds the recursion: each
iteration needs `pos < bytes.length` and advances `pos` by at least the
21-byte preamble, so `bytes.length + 1` is never exhausted. -/
def arrayCountScan : Nat → TadState → Nat → Int × TadState
  | 0, st, _ => (-1, st)
  | fuel + 1, st, curPos =>
    if hasMore st then
      let arrayPos := st.pos
      match readTadHeader ⟨st.bytes, st.pos⟩ with
      | .error _ => (-1, st)
      | .ok (a, s1) =>
        let st1 : TadState :=
          { st with pos := s1.pos + a.dataSize, offsets := st.offsets ++ [arrayPos] }
        if st1.offsets.length = intMax ∧ hasMore st1 then
          (-1, { st1 with offsets := [], arrayCount := -1 })
        else arrayCountScan fuel st1 curPos
    else
      ((st.offsets.length : Int),
       { st with pos := curPos, arrayCount := (st.offsets.length : Int) })

/-- `FormatImportExportTAD::arrayCount()`: return the cached value when
`_arrayCount >= -1`; otherwise save the position with `ftello` (which fails on
a non-seekable medium, caching -1), rewind, and scan. -/
def arrayCount (st : TadState) : Int × TadState :=
  if st.arrayCount ≥ -1 then (st.arrayCount, st)
  else if ¬ st.seekable then (-1, { st with arrayCount := -1 })
  else arrayCountScan (st.bytes.length + 1) { st with pos := 0 } st.pos

/-- The sequential part of `readArray`: parse a header at the current
position, then read the data.  On an error the spec declares the stream
position undefined for subsequent reads; the model returns the state
unchanged (no claim consults the position after a failed read). -/
def readRecord (st : TadState) : Except Err ArrayContainer × TadState :=
  match readTadHeader ⟨st.bytes, st.pos⟩ with
  | .error e => (.error e, st)
  | .ok (a, s1) =>
    match readTadData a s1 with
    | .error e => (.error e, st)
    | .ok (a1, s2) => (.ok a1, { st with pos := s2.pos })

/-- `FormatImportExportTAD::readArray(error, arrayIndex)`: a non-negative
index requires a known count (`ErrorSeekingNotSupported` otherwise), must be
in range (`ErrorInvalidData` otherwise), and seeks to the cached offset; then
the record at the current position is parsed. -/
def readArray (st : TadState) (arrayIndex : Int) :
    Except Err ArrayContainer × TadState :=
  if 0 ≤ arrayIndex then
    let r := arrayCount st
    let cnt := r.1
    let st1 := r.2
    if cnt < 0 then (.error .errorSeekingNotSupported, st1)
    else if cnt ≤ arrayIndex then (.error .errorInvalidData, st1)
    else if ¬ st1.seekable then (.error .errorSysErrno, st1)
    else readRecord { st1 with pos := st1.offsets.getD arrayIndex.toNat 0 }
  else readRecord st

/-- `memcpy(buf + off, src, src.length)` on a byte buffer, as used to fill the
`start` vector and to patch the tag-block length field. -/
def storeBytes (buf : List Nat) (off : Nat) (src : List Nat) : List Nat :=
  buf.take off ++ src ++ buf.drop (off + src.length)

/-- The payload of a tag block: for every key/value pair in order, the
NUL-terminated key then the NUL-terminated value (the `c_str()` inserts of
`writeTadTagList`). -/
def tagPayload (tl : TagList) : List Nat :=
  ((tl : List (List Nat × List Nat)).map (fun p => p.1 ++ [0] ++ p.2 ++ [0])).flatten

/-- `writeTadTagList(f, tl)` of io-tad.cpp: build `data` as 8 zero bytes
followed by the pair payload, then `memcpy` the payload length into the first
8 bytes and write the whole vector.  The vector is never empty (it is at
least the 8-byte length field), so the single `fwrite` succeeds in the
in-memory stream model; the function yields the bytes emitted. -/
def writeTadTagList (tl : TagList) : List Nat :=
  let data := List.replicate 8 0 ++ tagPayload tl
  storeBytes data 0 (le64 (data.length - 8))

/-- The dimension-size loop of `writeTad`: `memcpy` the d-th size at offset
`5 + 2*8 + 8*d` of the `start` vector. -/
def writeDims (start : List Nat) (dims : List Nat) (i : Nat) : List Nat :=
  match dims with
  | [] => start
  | x :: rest => writeDims (storeBytes start (21 + 8 * i) (le64 x)) rest (i + 1)

/-- The `start` vector of `writeTad`: `5 + 2*sizeof(uint64_t) +
dimensionCount*sizeof(uint64_t)` zero-initialized bytes, then the magic bytes,
reserved byte and type-code byte (a `uint8_t`, hence mod 256), the component
count at offset 5, the dimension count at offset 13, and the sizes. -/
def mkStart (a : ArrayContainer) : List Nat :=
  let start0 := List.replicate (21 + 8 * a.dimensions.length) 0
  let start1 := storeBytes start0 0 [84, 65, 68, 0, a.componentType % 256]
  let start2 := storeBytes start1 5 (le64 a.componentCount)
  let start3 := storeBytes start2 13 (le64 a.dimensions.length)
  writeDims start3 a.dimensions 0

/-- The tag-block loops of `writeTad`: one block for `componentTagList(c)`
with `c` in `[0, componentCount)` and likewise per dimension; indexing an
accessor on the container is modelled with `getD` over the index range. -/
def blockSeq (n : Nat) (ls : List TagList) : List Nat :=
  ((List.range n).map (fun i => writeTadTagList (ls.getD i []))).flatten

/-- `writeTad(f, array)` of io-tad.cpp: emit the `start` vector, the global
tag block, the per-component and per-dimension tag blocks, then
`fwrite(array.data(), array.dataSize(), 1, f)`.  All earlier writes are of
nonempty buffers and succeed in the in-memory model; the final data write
fails exactly when `dataSize` is 0 (C11 7.21.8.2: `fwrite` returns 0 when
`size` is 0), in which case nothing further is emitted and the function
reports failure.  The data buffer has exactly `dataSize` bytes by the
container invariant. -/
def writeTad (a : ArrayContainer) : List Nat × Bool :=
  let out := mkStart a ++ writeTadTagList a.globalTagList
    ++ blockSeq a.componentCount a.componentTagLists
    ++ blockSeq a.dimensions.length a.dimensionTagLists
  if a.dataSize = 0 then (out, false) else (out ++ a.data, true)

/-- `FormatImportExportTAD::writeArray`: append one record to the open file,
reporting `ErrorNone` on success and `ErrorSysErrno` on a failed write. -/
def writeArray (file : List Nat) (a : ArrayContainer) : List Nat × Err :=
  let r := writeTad a
  (file ++ r.1, if r.2 then .errorNone else .errorSysErrno)

/-- Outcome of the shape gate of `FormatImportExportJPEG::writeArray`:
either the container is rejected with an error, or control proceeds to the
libjpeg encoding (an external collaborator, not modelled). -/
inductive JpegWriteStep where
  | rejected (e : Err)
  | encodes
deriving DecidableEq, Repr

/-- `FormatImportExportJPEG::openForWriting`: the append flag is rejected with
`ErrorFeaturesUnsupported` before any file is opened; otherwise the result
depends only on whether `fopen` succeeds. -/
def jpegOpenForWriting (append : Bool) (fopenOk : Bool) : Err :=
  if append then .errorFeaturesUnsupported
  else if fopenOk then .errorNone else .errorSysErrno

/-- The shape check of `FormatImportExportJPEG::writeArray`: the container
must be two-dimensional with both sizes in `[1, 2^31-1]` (`dimension(d)` is a
`size_t`, so `<= 0` means `= 0`), of `uint8` component type, with 1 or 3
components; anything else returns `ErrorFeaturesUnsupported`. -/
def jpegWriteArray (a : ArrayContainer) : JpegWriteStep :=
  if a.dimensionCount ≠ 2 ∨ a.dimension 0 = 0 ∨ a.dimension 1 = 0 ∨
      a.dimension 0 > 2147483647 ∨ a.dimension 1 > 2147483647 ∨
      a.componentType ≠ uint8Code ∨
      (a.componentCount ≠ 1 ∧ a.componentCount ≠ 3) then
    .rejected .errorFeaturesUnsupported
  else .encodes

/-- The shape/type condition of claim C9, stated in the claim's own words: a
two-dimensional container with both dimensions in `[1, 2^31-1]`, of `uint8`
component type, and with exactly 1 or 3 components. -/
def jpegSupported (a : ArrayContainer) : Prop :=
  a.dimensionCount = 2 ∧ 1 ≤ a.dimension 0 ∧ a.dimension 0 ≤ 2147483647 ∧
  1 ≤ a.dimension 1 ∧ a.dimension 1 ≤ 2147483647 ∧
  a.componentType = uint8Code ∧
  (a.componentCount = 1 ∨ a.componentCount = 3)

instance (a : ArrayContainer) : Decidable (jpegSupported a) := by
  unfold jpegSupported; infer_instance

/-- The record layout exactly as claim C4 states it: the 3 magic bytes
'T','A','D', one zero reserved byte, one component-type code byte, the 8-byte
component count, the 8-byte dimension count, one 8-byte size per dimension in
order (all multi-byte integers in the native little-endian order), then the
global tag block, one tag block per component in index order, one per
dimension in index order, and the raw data bytes verbatim. -/
def specRecordLayout (a : ArrayContainer) : List Nat :=
  [84, 65, 68] ++ [0] ++ [a.componentType] ++
  le64 a.componentCount ++ le64 a.dimensions.length ++
  (a.dimensions.map le64).flatten ++
  writeTadTagList a.globalTagList ++
  (a.componentTagLists.map writeTadTagList).flatten ++
  (a.dimensionTagLists.map writeTadTagList).flatten ++
  a.data

/-- A minimal well-formed container: one dimension of size 1, one `uint8`
component, empty tag lists at every scope, one data byte. -/
def exampleA : ArrayContainer :=
  { dimensions := [1]
    componentCount := 1
    componentType := 1
    globalTagList := []
    componentTagLists := [[]]
    dimensionTagLists := [[]]
    data := [42] }

/-- The file produced by writing `exampleA` once to an empty file. -/
def exampleBytes : List Nat := (writeArray [] exampleA).1

/-- A tag block whose payload holds the pair key "K", value 0x07: declared
length 4, payload 'K', NUL, 0x07, NUL. -/
def ctrlBlock : List Nat := le64 4 ++ [75, 0, 7, 0]

/-- A tag block whose payload holds the pair key "K", value 0xC3 (a byte
≥ 128): declared length 4, payload 'K', NUL, 0xC3, NUL. -/
def highByteBlock : List Nat := le64 4 ++ [75, 0, 195, 0]

/-- A tag block with declared length 1 whose single payload byte 'A' is not
NUL-terminated. -/
def untermBlock : List Nat := le64 1 ++ [65]

/-- A stream whose first 21 bytes are all zero: the magic check fails. -/
def badMagicRecord : List Nat := List.replicate 21 0

/-- A record with a valid header (type code 1, zero components, zero
dimensions) whose global tag block declares 5 payload bytes but only 2 are
available. -/
def truncatedRecord : List Nat :=
  [84, 65, 68, 0, 1] ++ le64 0 ++ le64 0 ++ le64 5 ++ [65, 65]

end Tad

namespace Tad

theorem le64_length (v : Nat) : (le64 v).length = 8 := rfl

theorem storeBytes_split (pre tail src : List Nat) (n : Nat) (h : pre.length = n) :
    storeBytes (pre ++ tail) n src = pre ++ src ++ tail.drop src.length := by
  unfold storeBytes
  rw [List.take_left' h, ← h, ← List.drop_drop, List.drop_left]

theorem range_map_getD {α : Type} (l : List α) (d : α) :
    (List.range l.length).map (fun i => l.getD i d) = l := by
  induction l with
  | nil => rfl
  | cons a t ih =>
    rw [List.length_cons, List.range_succ_eq_map, List.map_cons, List.map_map]
    simp only [List.getD_cons_zero]
    have hcomp : ((fun i => (a :: t).getD i d) ∘ Nat.succ) = fun i => t.getD i d := by
      funext i
      simp [List.getD_cons_succ]
    rw [hcomp, ih]

theorem writeDims_eq (dims : List Nat) :
    ∀ (pre : List Nat) (i : Nat), pre.length = 21 + 8 * i →
      writeDims (pre ++ List.replicate (8 * dims.length) 0) dims i =
        pre ++ (dims.map le64).flatten := by
  induction dims with
  | nil =>
    intro pre i _
    simp [writeDims]
  | cons x rest ih =>
    intro pre i hp
    have hsplit : 8 * (x :: rest).length = 8 + 8 * rest.length := by
      rw [List.length_cons]; omega
    rw [hsplit, List.replicate_add 8 (8 * rest.length) 0]
    unfold writeDims
    rw [← hp,
      storeBytes_split pre (List.replicate 8 0 ++ List.replicate (8 * rest.length) 0)
        (le64 x) pre.length rfl,
      le64_length, List.drop_left' (List.length_replicate 8 0),
      ih (pre ++ le64 x) (i + 1) (by rw [List.length_append, le64_length, hp]; omega),
      List.map_cons, List.flatten_cons, List.append_assoc]

theorem storeBytes_zero (buf src : List Nat) :
    storeBytes buf 0 src = src ++ buf.drop src.length := by
  unfold storeBytes
  simp

theorem mkStart_eq (a : ArrayContainer) :
    mkStart a = [84, 65, 68, 0, a.componentType % 256] ++ le64 a.componentCount ++
      le64 a.dimensions.length ++ (a.dimensions.map le64).flatten := by
  have h1 : storeBytes (List.replicate (21 + 8 * a.dimensions.length) 0) 0
      [84, 65, 68, 0, a.componentType % 256] =
      [84, 65, 68, 0, a.componentType % 256] ++
        List.replicate (16 + 8 * a.dimensions.length) 0 := by
    rw [storeBytes_zero, List.drop_replicate]
    have he : 21 + 8 * a.dimensions.length -
        ([84, 65, 68, 0, a.componentType % 256] : List Nat).length =
        16 + 8 * a.dimensions.length := by
      simp only [List.length_cons, List.length_nil]
      omega
    rw [he]
  have h2 : storeBytes ([84, 65, 68, 0, a.componentType % 256] ++
      List.replicate (16 + 8 * a.dimensions.length) 0) 5 (le64 a.componentCount) =
      [84, 65, 68, 0, a.componentType % 256] ++ le64 a.componentCount ++
        List.replicate (8 + 8 * a.dimensions.length) 0 := by
    rw [storeBytes_split [84, 65, 68, 0, a.componentType % 256]
      (List.replicate (16 + 8 * a.dimensions.length) 0) (le64 a.componentCount) 5 rfl]
    rw [le64_length, List.drop_replicate,
      show 16 + 8 * a.dimensions.length - 8 = 8 + 8 * a.dimensions.length from by omega]
  have h3 : storeBytes ([84, 65, 68, 0, a.componentType % 256] ++ le64 a.componentCount ++
      List.replicate (8 + 8 * a.dimensions.length) 0) 13 (le64 a.dimensions.length) =
      [84, 65, 68, 0, a.componentType % 256] ++ le64 a.componentCount ++
        le64 a.dimensions.length ++ List.replicate (8 * a.dimensions.length) 0 := by
    rw [storeBytes_split ([84, 65, 68, 0, a.componentType % 256] ++ le64 a.componentCount)
      (List.replicate (8 + 8 * a.dimensions.length) 0) (le64 a.dimensions.length) 13
      (by rfl)]
    rw [le64_length, List.drop_replicate,
      show 8 + 8 * a.dimensions.length - 8 = 8 * a.dimensions.length from by omega]
  have h4 := writeDims_eq a.dimensions
    ([84, 65, 68, 0, a.componentType % 256] ++ le64 a.componentCount ++
      le64 a.dimensions.length) 0 (by rfl)
  simp only [mkStart, h1, h2, h3]
  rw [h4]

theorem blockSeq_eq (ls : List TagList) :
    blockSeq ls.length ls = (ls.map writeTadTagList).flatten := by
  unfold blockSeq
  have h : (fun i => writeTadTagList (ls.getD i [])) =
      writeTadTagList ∘ (fun i => ls.getD i []) := rfl
  rw [h, ← List.map_map, range_map_getD]

end Tad

namespace Tad

/-- Claim C4: for every container it accepts, `writeTad` emits exactly the 3
magic bytes 'T','A','D', one zero reserved byte, one component-type code
byte, the 8-byte component count, the 8-byte dimension count, one 8-byte size
per dimension in order (all in native byte order), then the global tag block,
one tag block per component in index order, one per dimension in index order,
and the raw data bytes verbatim. -/
theorem writeTad_layout (a : ArrayContainer) (ht : a.componentType < 256)
    (hc : a.componentTagLists.length = a.componentCount)
    (hd : a.dimensionTagLists.length = a.dimensions.length)
    (hok : (writeTad a).2 = true) :
    (writeTad a).1 = specRecordLayout a := by
  by_cases h0 : a.dataSize = 0
  · simp [writeTad, h0] at hok
  · simp only [writeTad, h0, if_false, ite_false]
    unfold specRecordLayout
    rw [mkStart_eq, Nat.mod_eq_of_lt ht, ← hc, ← hd, blockSeq_eq, blockSeq_eq]
    simp [List.append_assoc]

/-- Witness for C4 at the container `exampleA`. -/
theorem writeTad_layout_witness :
    exampleA.componentType < 256 ∧
    exampleA.componentTagLists.length = exampleA.componentCount ∧
    exampleA.dimensionTagLists.length = exampleA.dimensions.length ∧
    (writeTad exampleA).2 = true ∧
    (writeTad exampleA).1 = specRecordLayout exampleA :=
  ⟨by decide, rfl, rfl, rfl, writeTad_layout exampleA (by decide) rfl rfl rfl⟩

end Tad

namespace Tad

/-- Claim C1 (code_bug evidence): the round trip fails already for the
minimal well-formed container `exampleA` (one 1-element dimension, one
`uint8` component, empty tag lists, one data byte).  `writeArray` succeeds,
but reading the record back fails with the system-I/O error: the record's
empty tag blocks have a zero-length payload, and `fread` of zero bytes
returns 0, not 1 (C11 7.21.8.1), so `readTadTagList` reports
`ErrorSysErrno` instead of reconstructing the container.  The claim states
that the read-back container is identical to the written one. -/
theorem roundTrip_fails_minimal_record :
    (writeArray [] exampleA).2 = Err.errorNone ∧
    (readArray (openForReading (writeArray [] exampleA).1 true) (-1)).1 =
      Except.error Err.errorSysErrno :=
  ⟨rfl, rfl⟩

/-- Claim C2 (code_bug evidence): `arrayCount` on an empty stream returns 0
(the K = 0 case of the claim holds), but after writing K = 1 record the scan
aborts — `readTadHeader` fails on the record's empty global tag block — and
`arrayCount` returns -1 rather than 1. -/
theorem arrayCount_miscounts_written_stream :
    (arrayCount (openForReading [] true)).1 = 0 ∧
    (arrayCount (openForReading (writeArray [] exampleA).1 true)).1 = -1 :=
  ⟨rfl, rfl⟩

/-- Claim C3 (code_bug evidence): on a seekable stream holding the K = 1
record written by `writeArray`, the indexed read `readArray 0` does not
return the written container: the triggered count scan fails (see C2), the
count is reported negative, and the call errors with
`ErrorSeekingNotSupported`. -/
theorem readArray_indexed_fails_written_stream :
    (readArray (openForReading (writeArray [] exampleA).1 true) 0).1 =
      Except.error Err.errorSeekingNotSupported :=
  rfl

/-- Claim C6 (code_bug evidence): a tag block of declared length 4 whose
payload is 'K', NUL, 0x07, NUL — i.e. the pair key "K" / value 0x07, with a
control byte inside the value — decodes WITHOUT an error: `readString`
reports a key length that already counts the NUL terminator, the caller
skips one extra byte, and the 0x07 byte is never examined; the block decodes
to the garbled pair ("K", "").  The claim states such a block fails with
`ErrorInvalidData`. -/
theorem control_byte_escapes_rejection :
    readTadTagList ⟨ctrlBlock, 0⟩ =
      Except.ok ([([75], [])], ⟨ctrlBlock, 12⟩) :=
  rfl

/-- Claim C7 (code_bug evidence): decoding a tag block of declared length 1
whose single payload byte 'A' is not NUL-terminated makes the string scan of
`readString` run past the end of the 1-byte payload buffer (an out-of-bounds
heap read, undefined behavior in C++), modelled as the distinguished outcome
`oobAccess` — distinct from every real `Error` value, in particular from the
`ErrorInvalidData` the claim promises. -/
theorem unterminated_string_reads_out_of_bounds :
    readTadTagList ⟨untermBlock, 0⟩ = Except.error Err.oobAccess ∧
    Err.oobAccess ≠ Err.errorInvalidData :=
  ⟨rfl, by decide⟩

/-- Claim C8 (code_bug evidence): on a non-seekable stream holding the K = 1
record written by `writeArray`, the two error-side conjuncts of the claim
hold — `arrayCount` reports the sentinel -1 and the indexed `readArray 0`
fails with `ErrorSeekingNotSupported` — but the sequential `readArray (-1)`
does NOT succeed: it fails with `ErrorSysErrno` on the record's empty tag
blocks (see C1) instead of returning the record. -/
theorem pipe_sequential_read_fails :
    (arrayCount (openForReading (writeArray [] exampleA).1 false)).1 = -1 ∧
    (readArray (openForReading (writeArray [] exampleA).1 false) 0).1 =
      Except.error Err.errorSeekingNotSupported ∧
    (readArray (openForReading (writeArray [] exampleA).1 false) (-1)).1 =
      Except.error Err.errorSysErrno :=
  ⟨rfl, rfl, rfl⟩

end Tad

namespace Tad

/-- Counterexample to claim C5 as stated: a record with valid magic, reserved
byte and type code whose global tag block declares 5 payload bytes while only
2 remain is rejected with the system-I/O error `ErrorSysErrno` (the short
`fread` of the payload), not with the `ErrorInvalidData` the claim names for
this case. -/
theorem truncated_tag_block_sys_error :
    readTadHeader ⟨truncatedRecord, 0⟩ = Except.error Err.errorSysErrno ∧
    Err.errorSysErrno ≠ Err.errorInvalidData :=
  ⟨rfl, by decide⟩

/-- Claim C5, amended: altered magic bytes, a nonzero reserved byte, or a
type code of 16 or more make `readTadHeader` fail with `ErrorInvalidData`;
a tag block whose declared length exceeds the available bytes makes
`readTadTagList` fail with the system-I/O error `ErrorSysErrno` (short
read) — in every case an error is reported, never a silently wrong
container. -/
theorem corruption_always_errors :
    (∀ hdr rest : List Nat, hdr.length = 21 →
      (hdr.getD 0 0 ≠ 84 ∨ hdr.getD 1 0 ≠ 65 ∨ hdr.getD 2 0 ≠ 68 ∨
        hdr.getD 3 0 ≠ 0 ∨ hdr.getD 4 0 > 15) →
      readTadHeader ⟨hdr ++ rest, 0⟩ = Except.error Err.errorInvalidData) ∧
    (∀ nb avail : List Nat, nb.length = 8 → decodeLe64 nb ≤ sizetMax →
      avail.length < decodeLe64 nb →
      readTadTagList ⟨nb ++ avail, 0⟩ = Except.error Err.errorSysErrno) := by
  constructor
  · intro hdr rest h21 hbad
    have hfr : freadOne 21 ⟨hdr ++ rest, 0⟩ = some (hdr, ⟨hdr ++ rest, 21⟩) := by
      unfold freadOne
      rw [if_neg (by decide), if_pos (by simp only [List.length_append, h21]; omega)]
      simp [List.take_left' h21]
    simp only [readTadHeader, hfr]
    rw [if_pos (by tauto)]
  · intro nb avail h8 hmax hlen
    have hfr : freadOne 8 ⟨nb ++ avail, 0⟩ = some (nb, ⟨nb ++ avail, 8⟩) := by
      unfold freadOne
      rw [if_neg (by decide), if_pos (by simp only [List.length_append, h8]; omega)]
      simp [List.take_left' h8]
    have hfr2 : freadOne (decodeLe64 nb) ⟨nb ++ avail, 8⟩ = none := by
      unfold freadOne
      rw [if_neg (by omega), if_neg (by simp only [List.length_append, h8]; omega)]
    simp only [readTadTagList, hfr]
    rw [if_neg (by omega)]
    simp only [hfr2]

/-- Witness for the amended C5: the all-zero 21-byte header is rejected with
`ErrorInvalidData`, and a tag block declaring 5 bytes with 2 available is
rejected with `ErrorSysErrno`. -/
theorem corruption_always_errors_witness :
    readTadHeader ⟨badMagicRecord ++ [], 0⟩ = Except.error Err.errorInvalidData ∧
    readTadTagList ⟨le64 5 ++ [65, 65], 0⟩ = Except.error Err.errorSysErrno :=
  ⟨corruption_always_errors.1 badMagicRecord [] (by decide) (by decide),
   corruption_always_errors.2 (le64 5) [65, 65] (by decide) (by decide) (by decide)⟩

end Tad

namespace Tad

/-- Claim C9: for the JPEG codec, `openForWriting` with the append flag set
returns the unsupported-feature error (before any file is even opened), and
`writeArray` returns the unsupported-feature error for every container that
is not two-dimensional with both dimensions in [1, 2^31-1], of `uint8`
component type, and with exactly 1 or 3 components. -/
theorem jpeg_rejects_unsupported :
    (∀ fopenOk : Bool, jpegOpenForWriting true fopenOk = Err.errorFeaturesUnsupported) ∧
    (∀ a : ArrayContainer, ¬ jpegSupported a →
      jpegWriteArray a = JpegWriteStep.rejected Err.errorFeaturesUnsupported) := by
  constructor
  · intro fopenOk
    rfl
  · intro a h
    have hC : a.dimensionCount ≠ 2 ∨ a.dimension 0 = 0 ∨ a.dimension 1 = 0 ∨
        a.dimension 0 > 2147483647 ∨ a.dimension 1 > 2147483647 ∨
        a.componentType ≠ uint8Code ∨
        (a.componentCount ≠ 1 ∧ a.componentCount ≠ 3) := by
      by_contra hnc
      push_neg at hnc
      obtain ⟨h1, h2, h3, h4, h5, h6, h7⟩ := hnc
      have hcc : a.componentCount = 1 ∨ a.componentCount = 3 := by
        by_cases hc1 : a.componentCount = 1
        · exact Or.inl hc1
        · exact Or.inr (h7 hc1)
      exact h ⟨h1, by omega, by omega, by omega, by omega, h6, hcc⟩
    unfold jpegWriteArray
    rw [if_pos hC]

/-- Witness for C9: the append flag is rejected, and the one-dimensional
container `exampleA` is rejected by the shape gate. -/
theorem jpeg_rejects_unsupported_witness :
    jpegOpenForWriting true true = Err.errorFeaturesUnsupported ∧
    jpegWriteArray exampleA = JpegWriteStep.rejected Err.errorFeaturesUnsupported :=
  ⟨jpeg_rejects_unsupported.1 true,
   jpeg_rejects_unsupported.2 exampleA (by decide)⟩

/-- Counterexample to claim C10 as stated: a tag block of declared length 4
whose payload 'K', NUL, 0xC3, NUL contains the byte 195 ≥ 128 inside its
value nevertheless decodes WITHOUT an error — the off-by-one string length
computed by `readString` makes the parsing loop skip the 0xC3 byte, so the
signed-char comparison never sees it and the block decodes to the garbled
pair ("K", ""). -/
theorem high_byte_block_decodes :
    readTadTagList ⟨highByteBlock, 0⟩ =
      Except.ok ([([75], [])], ⟨highByteBlock, 12⟩) :=
  rfl

/-- Helper for the amended C10: the `readString` scan rejects the first byte
≥ 128 it reaches after any run of plain printable bytes (the comparison
`c < 32` is on a signed char, so bytes 128..255 are negative and caught). -/
theorem readStringGo_high_byte (b : Nat) (post : List Nat) (hb : 128 ≤ b) :
    ∀ (pre : List Nat) (acc : List Nat) (i : Nat),
      (∀ x ∈ pre, 32 ≤ x ∧ x ≤ 126) →
      readStringGo (pre ++ b :: post) acc i = ReadStrRes.ctrlFail := by
  intro pre
  induction pre with
  | nil =>
    intro acc i _
    rw [List.nil_append]
    unfold readStringGo
    rw [if_neg (by omega), if_pos (Or.inr (Or.inr hb))]
  | cons c t ih =>
    intro acc i hmem
    have hc := hmem c (List.mem_cons_self c t)
    rw [List.cons_append]
    unfold readStringGo
    rw [if_neg (by omega), if_neg (by omega)]
    exact ih (acc ++ [c]) (i + 1) (fun x hx => hmem x (List.mem_cons_of_mem c hx))

/-- Claim C10, amended: every key or value byte with value 128 or greater
that the string scanner actually reaches causes `readString` to fail (and the
enclosing tag-block decode to return `ErrorInvalidData`), because the
per-byte check compares a signed char against 32, accepting only bytes in
[32,126] inside strings; however, the off-by-one length accounting of
`readString` makes the parsing loop skip bytes between a value's true start
and the position it scans, so a tag block containing a byte ≥ 128 at a
skipped position can still decode without an error. -/
theorem readString_rejects_reached_high_bytes (pre : List Nat) (b : Nat)
    (post : List Nat) (hpre : ∀ x ∈ pre, 32 ≤ x ∧ x ≤ 126) (hb : 128 ≤ b) :
    readString (pre ++ b :: post) = ReadStrRes.ctrlFail :=
  readStringGo_high_byte b post hb pre [] 0 hpre

/-- Witness for the amended C10: the scan of "K" followed by byte 195 fails. -/
theorem readString_rejects_reached_high_bytes_witness :
    (∀ x ∈ [75], 32 ≤ x ∧ x ≤ 126) ∧ 128 ≤ 195 ∧
    readString ([75] ++ 195 :: [0]) = ReadStrRes.ctrlFail :=
  ⟨by decide, by decide,
   readString_rejects_reached_high_bytes [75] 195 [0] (by decide) (by decide)⟩

end Tad
